import Mathlib

/-!
Verification of the credential-lifecycle subsystem of an Outlook MCP server
(`auth/token-manager.js`, `auth/oauth-server.js`).

Shallow embedding notes:
* A JS token object is modelled as a `TokenRecord` with optional fields; the
  JS values `null` and `undefined` are both modelled as `none` (the code only
  ever distinguishes them through truthiness, where they agree).
* JS numbers are modelled as `Int`.  The code writes `expires_at` only as
  `Date.now() + expires_in*1000`; the one place a missing `expires_in` would
  produce `NaN` is modelled as `none`, which is observationally equivalent in
  this codebase (`NaN` is falsy, compares false, serialises to JSON `null`).
* The token file is modelled by the classification of its content that the
  loaders perform: absent (ENOENT), unreadable (other I/O error), unparsable
  JSON, parsed-but-not-a-usable-object, or a parsed object (`TokenRecord`).
  `JSON.parse (JSON.stringify v) = v` on JSON-representable values is
  reflected by the file directly storing the parsed form.
* Module state (`cachedTokens`, `lastErrorReason`, file content) is threaded
  explicitly; each async function becomes a pure function from state and
  environment (current time, network response) to result, new state and a
  trace of I/O effects.
* `ErrorReason` is modelled by its `code`; the human-readable `message` and
  extra diagnostic fields interpolate runtime strings and are referenced by
  no claim.
-/

/-- A JS string-valued field: `none` models `null`/`undefined`.
Truthiness of such a field: present and non-empty. -/
def strTruthy : Option String → Bool
  | some s => s ≠ ""
  | none => false

/-- Token record, the JSON object persisted in the token file
(fields of §3 of the design; all optional, as in a raw JS object). -/
structure TokenRecord where
  access_token : Option String := none
  refresh_token : Option String := none
  expires_at : Option Int := none
  expires_in : Option Int := none
  scope : Option String := none
  token_type : Option String := none
deriving Repr, DecidableEq

/-- Structured last-error record, modelled by its machine-readable `code`. -/
structure ErrorReason where
  code : String
deriving Repr, DecidableEq

/-- Classified content of the on-disk token file, as observed by a read:
`absent` = ENOENT, `ioError` = any other read failure, `invalidJson` =
content rejected by `JSON.parse`, `primitiveJson` = valid JSON whose value
is not a usable object (a primitive, `null`, or an object with no modelled
fields is subsumed by a `record` with all fields `none`), `record` = a
parsed JSON object with the modelled fields. -/
inductive FileState
  | absent
  | ioError
  | invalidJson
  | primitiveJson
  | record (r : TokenRecord)
deriving Repr, DecidableEq

/-- Module-level mutable state of `token-manager.js` together with the file
it owns. The in-flight promise guards are `null` at entry and exit of every
sequential run (`finally` clears them), so they appear only in the separate
interleaving model used for the concurrency claim. -/
structure TMState where
  cachedTokens : Option TokenRecord
  lastErrorReason : Option ErrorReason
  file : FileState
deriving Repr, DecidableEq

/-- I/O effects performed by a run: token-file reads (also `existsSync`
probes), token-file writes, and network round trips to the token endpoint. -/
inductive Eff
  | fileRead
  | fileWrite
  | netRequest
deriving Repr, DecidableEq

/-- Outcome of a JS async function: resolved value or rejection (modelled by
the error message). -/
inductive JsOutcome (α : Type)
  | resolved (v : α)
  | rejected (e : String)
deriving Repr, DecidableEq

/-- Refresh buffer from `config.js`: `TOKEN_REFRESH_BUFFER_MS = 20*60*1000`. -/
def TOKEN_REFRESH_BUFFER_MS : Int := 20 * 60 * 1000

/-- `isExpired(tokens)` (token-manager.js:147-150): true when `tokens` is
falsy, `tokens.expires_at` is falsy (absent or `0`), or
`now >= expires_at - buffer`.  `Date.now()` is passed explicitly as `now`. -/
def isExpired (tokens : Option TokenRecord) (now : Int) : Bool :=
  match tokens with
  | none => true
  | some t =>
    match t.expires_at with
    | none => true
    | some e => if e = 0 then true else decide (now ≥ e - TOKEN_REFRESH_BUFFER_MS)

/-- `loadTokens()` (token-manager.js:54-122), sequential run (no load already
in flight).  Returns the outcome, the new state, and the effect trace.
The whole body is wrapped in try/catch, so the outcome is always resolved. -/
def loadTokensRun (s : TMState) : JsOutcome (Option TokenRecord) × TMState × List Eff :=
  match s.cachedTokens with
  | some t => (.resolved (some t), s, [])
  | none =>
    match s.file with
    | .absent =>
      (.resolved none,
        { s with lastErrorReason := some ⟨"TOKEN_FILE_MISSING"⟩ }, [.fileRead])
    | .ioError =>
      (.resolved none,
        { s with lastErrorReason := some ⟨"TOKEN_FILE_READ_ERROR"⟩ }, [.fileRead])
    | .invalidJson =>
      (.resolved none,
        { s with lastErrorReason := some ⟨"TOKEN_FILE_INVALID_JSON"⟩ }, [.fileRead])
    | .primitiveJson =>
      (.resolved none,
        { s with lastErrorReason := some ⟨"TOKEN_FILE_INVALID_SHAPE"⟩ }, [.fileRead])
    | .record r =>
      if strTruthy r.access_token then
        (.resolved (some r),
          { s with cachedTokens := some r, lastErrorReason := none }, [.fileRead])
      else
        (.resolved none,
          { s with lastErrorReason := some ⟨"TOKEN_FILE_INVALID_SHAPE"⟩ }, [.fileRead])

/-- `saveTokens(tokens)` (token-manager.js:128-140): falsy argument is a
warning-only no-op; otherwise write the pretty-printed record, update the
cache, clear the error slot.  The write is assumed to succeed (a write
failure would propagate as a rejection; no claim concerns it). -/
def saveTokensRun (tokens : Option TokenRecord) (s : TMState) : TMState × List Eff :=
  match tokens with
  | none => (s, [])
  | some t =>
    ({ s with file := .record t, cachedTokens := some t, lastErrorReason := none },
      [.fileWrite])

/-- `loadTokenCacheSync()` (token-manager.js:424-465), the blocking loader.
On an unreadable file the outer catch swallows the error and records
nothing (the source comments that diagnosis is left to the async loader). -/
def loadTokenCacheSyncRun (s : TMState) : Option TokenRecord × TMState × List Eff :=
  match s.cachedTokens with
  | some t => (some t, s, [])
  | none =>
    match s.file with
    | .absent =>
      (none, { s with lastErrorReason := some ⟨"TOKEN_FILE_MISSING"⟩ }, [.fileRead])
    | .ioError =>
      (none, s, [.fileRead])
    | .invalidJson =>
      (none, { s with lastErrorReason := some ⟨"TOKEN_FILE_INVALID_JSON"⟩ }, [.fileRead])
    | .primitiveJson =>
      (none, { s with lastErrorReason := some ⟨"TOKEN_FILE_INVALID_SHAPE"⟩ }, [.fileRead])
    | .record r =>
      if strTruthy r.access_token then
        (some r, { s with cachedTokens := some r, lastErrorReason := none }, [.fileRead])
      else
        (none, { s with lastErrorReason := some ⟨"TOKEN_FILE_INVALID_SHAPE"⟩ }, [.fileRead])

/-- Client configuration (`config.AUTH_CONFIG`): the two credential fields
the token functions test for truthiness (empty string = unset). -/
structure AuthCfg where
  clientId : String
  clientSecret : String
deriving Repr, DecidableEq

/-- Both client credentials configured (token-manager.js:166). -/
def cfgOk (cfg : AuthCfg) : Bool :=
  cfg.clientId ≠ "" ∧ cfg.clientSecret ≠ ""

/-- Environment of one refresh attempt: outcome of the HTTPS round trip to
the token endpoint.  `success` carries the parsed 2xx body (`none` when the
body fails `JSON.parse`); `failure` carries the HTTP status and whether the
raw body matches the `invalid_client` / `AADSTS7000215` pattern
(token-manager.js:246), modelled as a boolean input. -/
inductive RefreshNet
  | netError
  | success (body : Option TokenRecord)
  | failure (status : Int) (invalidClient : Bool)
deriving Repr, DecidableEq

/-- The refresh token the refresh path settles on (token-manager.js:177-186):
the `refresh_token` of the cache/load result when truthy, otherwise the
directly from disk (all read or parse failures of that re-read are ignored). -/
def diskRefreshToken (file : FileState) : Option String :=
  match file with
  | .record r => r.refresh_token
  | _ => none

/-- The refresh token a sequential `refreshAccessToken()` run settles on,
starting from state `s` (token-manager.js:174-186): the `refresh_token` of
the `await loadTokens()` result when truthy, otherwise the one re-read
one read directly from disk (`none` when that re-read fails or yields none). -/
def usedRefreshToken (s : TMState) : Option String :=
  let s1 := (loadTokensRun s).2.1
  let fromLoad := s1.cachedTokens.bind (fun t => t.refresh_token)
  if strTruthy fromLoad then fromLoad else diskRefreshToken s1.file

/-- Record built on a 2xx refresh response (token-manager.js:222-228):
the parsed body with `expires_at` recomputed from `Date.now()` and the
`expires_in` of the body, and the old refresh token retained when the
`refresh_token` of the body is falsy. -/
def refreshSuccessRecord (body : TokenRecord) (now : Int) (oldRefresh : String) :
    TokenRecord :=
  let withExpiry := { body with expires_at := body.expires_in.map (fun ei => now + ei * 1000) }
  if strTruthy withExpiry.refresh_token then withExpiry
  else { withExpiry with refresh_token := some oldRefresh }

/-- `refreshAccessToken()` (token-manager.js:158-277), sequential run (no
refresh already in flight).  Mirrors the source order: credential check,
`await loadTokens()`, fallback direct disk read for the refresh token,
rejection without recording when none exists, then the network exchange. -/
def refreshRun (cfg : AuthCfg) (now : Int) (net : RefreshNet) (s : TMState) :
    JsOutcome TokenRecord × TMState × List Eff :=
  if ¬ cfgOk cfg then
    (.rejected "Client ID or Client Secret is not configured",
      { s with lastErrorReason := some ⟨"CLIENT_CONFIG_MISSING"⟩ }, [])
  else
    let s1 := (loadTokensRun s).2.1
    let e1 := (loadTokensRun s).2.2
    let fromLoad := s1.cachedTokens.bind (fun t => t.refresh_token)
    let viaDisk := ¬ strTruthy fromLoad
    let e2 := e1 ++ (if viaDisk then [Eff.fileRead] else [])
    match usedRefreshToken s with
      | some rt =>
        if rt = "" then
          (.rejected "No refresh token available", s1, e2)
        else
          match net with
          | .netError =>
            (.rejected "Network error during refresh",
              { s1 with lastErrorReason := some ⟨"REFRESH_NETWORK_ERROR"⟩ },
              e2 ++ [.netRequest])
          | .success none =>
            (.rejected "Unexpected token in JSON", s1, e2 ++ [.netRequest])
          | .success (some body) =>
            let newTokens := refreshSuccessRecord body now rt
            match saveTokensRun (some newTokens) s1 with
            | (s2, e3) => (.resolved newTokens, s2, e2 ++ [.netRequest] ++ e3)
          | .failure _ invalidClient =>
            let code := if invalidClient then "REFRESH_FAILED_INVALID_CLIENT" else "REFRESH_FAILED"
            (.rejected "Token refresh failed",
              { s1 with lastErrorReason := some ⟨code⟩ },
              e2 ++ [.netRequest])
      | none => (.rejected "No refresh token available", s1, e2)

/-- `getAccessToken()` (token-manager.js:284-309): valid cache short-circuit,
then disk load, then refresh; a refresh rejection is caught and mapped to
`null`. -/
def getAccessTokenRun (cfg : AuthCfg) (now : Int) (net : RefreshNet) (s : TMState) :
    Option String × TMState × List Eff :=
  if strTruthy (s.cachedTokens.bind (fun t => t.access_token)) ∧
      ¬ isExpired s.cachedTokens now then
    ((s.cachedTokens.bind (fun t => t.access_token)),
      { s with lastErrorReason := none }, [])
  else
    let s1 := (loadTokensRun s).2.1
    let e1 := (loadTokensRun s).2.2
    let loaded := s1.cachedTokens
    if strTruthy (loaded.bind (fun t => t.access_token)) ∧ ¬ isExpired loaded now then
      (loaded.bind (fun t => t.access_token), s1, e1)
    else
      match (refreshRun cfg now net s1).1 with
      | .resolved r => (r.access_token, (refreshRun cfg now net s1).2.1,
          e1 ++ (refreshRun cfg now net s1).2.2)
      | .rejected _ => (none, (refreshRun cfg now net s1).2.1,
          e1 ++ (refreshRun cfg now net s1).2.2)

/-- Query parameters of `GET /auth/callback` as Express exposes them
(`req.query`): each is `none` when absent from the query string. -/
structure CallbackQuery where
  code : Option String := none
  error : Option String := none
  error_description : Option String := none
  state : Option String := none
deriving Repr, DecidableEq

/-- Result of the callback route: HTTP status sent and whether
`exchangeCodeForTokens` was invoked. -/
structure CallbackResult where
  status : Nat
  exchangerInvoked : Bool
deriving Repr, DecidableEq

/-- The `GET /auth/callback` handler (oauth-server.js:89-112).  Guard order
as in the source: falsy `state` → 400; provider `error` → 400; falsy
`code` → 400; otherwise the code exchange runs, answering 200 on resolution
and 500 on rejection (`exchangeOutcome` is that outcome). -/
def authCallbackRun (q : CallbackQuery) (exchangeOutcome : JsOutcome TokenRecord) :
    CallbackResult :=
  if ¬ strTruthy q.state then
    { status := 400, exchangerInvoked := false }
  else if strTruthy q.error then
    { status := 400, exchangerInvoked := false }
  else if ¬ strTruthy q.code then
    { status := 400, exchangerInvoked := false }
  else
    match exchangeOutcome with
    | .resolved _ => { status := 200, exchangerInvoked := true }
    | .rejected _ => { status := 500, exchangerInvoked := true }

/-!
Interleaving model for the refresh concurrency guard
(token-manager.js:158-277).

Each caller of `refreshAccessToken()` is a thread.  The synchronous prefix
of the function (guard check of `_refreshPromise` at line 160, credential
check, the call into `loadTokens()`) runs atomically at entry; the `await`
of the load (line 174) is a suspension point, after which the resumed
continuation builds the request body, assigns `_refreshPromise` (line 202)
and synchronously issues the HTTPS request inside the promise executor.

The scenario fixes the environment where the source JSDoc ("Deduplicates
concurrent refresh calls") should apply most directly: credentials are
configured and the cache already holds a record with a truthy
`refresh_token`, so the awaited load resolves immediately from cache and no
disk fallback runs.  Each promise is identified by a serial number;
`netCalls` counts HTTPS round trips issued to the token endpoint.
-/

/-- Execution phase of one `refreshAccessToken()` caller. -/
inductive RPhase
  | start
  | loading
  | waiting (pid : Nat)
deriving Repr, DecidableEq

/-- State of the interleaving model: the shared `_refreshPromise` slot, the
next promise serial number, the phase of each thread, and the count of
network requests issued. -/
structure RSched where
  refreshPromise : Option Nat
  nextPid : Nat
  threads : List RPhase
  netCalls : Nat
deriving Repr, DecidableEq

/-- One scheduler step running thread `tid` (warm-cache scenario above).
`start`: run the synchronous prefix — if `_refreshPromise` is non-null the
caller attaches to it (line 160-163), else it suspends at `await
loadTokens()`.  `loading`: resume after the load — take the cached refresh
token, assign `_refreshPromise` to a fresh promise and issue the HTTPS
request (lines 194-271).  `waiting` threads only await their promise. -/
def rStep (s : RSched) (tid : Nat) : RSched :=
  match s.threads.get? tid with
  | none => s
  | some ph =>
    match ph with
    | .start =>
      match s.refreshPromise with
      | some p => { s with threads := s.threads.set tid (.waiting p) }
      | none => { s with threads := s.threads.set tid .loading }
    | .loading =>
      { s with
        refreshPromise := some s.nextPid,
        nextPid := s.nextPid + 1,
        threads := s.threads.set tid (.waiting s.nextPid),
        netCalls := s.netCalls + 1 }
    | .waiting _ => s

/-- Run a schedule (list of thread ids, executed left to right). -/
def rRun (sched : List Nat) (s : RSched) : RSched :=
  sched.foldl rStep s

/-- Initial state with `n` callers, none yet entered, no refresh in flight. -/
def rInit (n : Nat) : RSched :=
  { refreshPromise := none, nextPid := 0, threads := List.replicate n .start, netCalls := 0 }

/-- C4: for every record `r` and nonnegative time `now` (`Date.now()` is a
nonnegative epoch timestamp), `isExpired r` is true iff `r` is null, or its
`expires_at` is missing, or `now ≥ expires_at - buffer`; moreover at exactly
`now = expires_at - buffer` the result is true and one millisecond below it
is false. -/
theorem isExpired_spec (r : Option TokenRecord) (now : Int) (hnow : 0 ≤ now) :
    (isExpired r now = true ↔
      r = none ∨
      (∃ t, r = some t ∧ t.expires_at = none) ∨
      (∃ t e, r = some t ∧ t.expires_at = some e ∧
        now ≥ e - TOKEN_REFRESH_BUFFER_MS)) ∧
    (∀ t : TokenRecord, ∀ e : Int, t.expires_at = some e →
      0 ≤ e - TOKEN_REFRESH_BUFFER_MS - 1 →
      isExpired (some t) (e - TOKEN_REFRESH_BUFFER_MS) = true ∧
      isExpired (some t) (e - TOKEN_REFRESH_BUFFER_MS - 1) = false) := by
  constructor
  · cases r with
    | none => simp [isExpired]
    | some t =>
      cases he : t.expires_at with
      | none =>
        simp only [isExpired, he]
        simp [he]
      | some e =>
        simp only [isExpired, he]
        by_cases h0 : e = 0
        · subst h0
          simp only [if_pos rfl]
          constructor
          · intro _
            refine Or.inr (Or.inr ⟨t, 0, rfl, he, ?_⟩)
            have : (0 : Int) < TOKEN_REFRESH_BUFFER_MS := by norm_num [TOKEN_REFRESH_BUFFER_MS]
            omega
          · intro _; rfl
        · simp only [if_neg h0, decide_eq_true_eq]
          constructor
          · intro hge
            exact Or.inr (Or.inr ⟨t, e, rfl, he, hge⟩)
          · rintro (h | ⟨t', ht', hnone⟩ | ⟨t', e', ht', he', hge⟩)
            · exact absurd h (by simp)
            · cases ht'
              rw [he] at hnone
              exact absurd hnone (by simp)
            · cases ht'
              rw [he] at he'
              cases he'
              exact hge
  · intro t e he hpos
    have hB : TOKEN_REFRESH_BUFFER_MS = 1200000 := by norm_num [TOKEN_REFRESH_BUFFER_MS]
    have h0 : e ≠ 0 := by omega
    constructor
    · simp only [isExpired, he, if_neg h0, decide_eq_true_eq]
      omega
    · simp only [isExpired, he, if_neg h0]
      simp only [decide_eq_false_iff_not]
      omega

/-- Witness for `isExpired_spec` at the concrete record
`{expires_at := 2000000}` (buffer = 1200000): expired at `now = 800000`,
not expired at `now = 799999`. -/
theorem isExpired_spec_witness :
    isExpired (some { expires_at := some 2000000 }) 800000 = true ∧
    isExpired (some { expires_at := some 2000000 }) 799999 = false := by
  have h := (isExpired_spec (some { expires_at := some 2000000 }) 0 le_rfl).2
    { expires_at := some 2000000 } 2000000 rfl (by norm_num [TOKEN_REFRESH_BUFFER_MS])
  norm_num [TOKEN_REFRESH_BUFFER_MS] at h
  exact h

/-- C8: every `GET /auth/callback` request whose query lacks the `state`
parameter is answered 400 and `exchangeCodeForTokens` is not invoked,
whatever the `code`/`error` parameters and whatever the exchanger would
have done. -/
theorem callback_missing_state (q : CallbackQuery) (ex : JsOutcome TokenRecord)
    (h : q.state = none) :
    authCallbackRun q ex = { status := 400, exchangerInvoked := false } := by
  unfold authCallbackRun
  rw [h]
  simp [strTruthy]

/-- Witness for `callback_missing_state`: a callback carrying a code but no
state. -/
theorem callback_missing_state_witness :
    authCallbackRun { code := some "abc" } (.resolved {}) =
      { status := 400, exchangerInvoked := false } :=
  callback_missing_state { code := some "abc" } (.resolved {}) rfl

/-- C5: `loadTokens()` never rejects, and on a cold cache classifies every
file state exactly as: absent → `TOKEN_FILE_MISSING`; unparsable JSON →
`TOKEN_FILE_INVALID_JSON`; non-object or falsy `access_token` →
`TOKEN_FILE_INVALID_SHAPE`; any other read failure →
`TOKEN_FILE_READ_ERROR` — returning null in each case — and on success
returns the parsed record, caches it and clears the error slot. -/
theorem loadTokens_spec (s : TMState) :
    (∃ v s2 effs, loadTokensRun s = (.resolved v, s2, effs)) ∧
    (s.cachedTokens = none →
      (s.file = .absent →
        loadTokensRun s = (.resolved none,
          { s with lastErrorReason := some ⟨"TOKEN_FILE_MISSING"⟩ }, [.fileRead])) ∧
      (s.file = .invalidJson →
        loadTokensRun s = (.resolved none,
          { s with lastErrorReason := some ⟨"TOKEN_FILE_INVALID_JSON"⟩ }, [.fileRead])) ∧
      (s.file = .primitiveJson →
        loadTokensRun s = (.resolved none,
          { s with lastErrorReason := some ⟨"TOKEN_FILE_INVALID_SHAPE"⟩ }, [.fileRead])) ∧
      (∀ r, s.file = .record r → strTruthy r.access_token = false →
        loadTokensRun s = (.resolved none,
          { s with lastErrorReason := some ⟨"TOKEN_FILE_INVALID_SHAPE"⟩ }, [.fileRead])) ∧
      (s.file = .ioError →
        loadTokensRun s = (.resolved none,
          { s with lastErrorReason := some ⟨"TOKEN_FILE_READ_ERROR"⟩ }, [.fileRead])) ∧
      (∀ r, s.file = .record r → strTruthy r.access_token = true →
        loadTokensRun s = (.resolved (some r),
          { s with cachedTokens := some r, lastErrorReason := none }, [.fileRead]))) := by
  obtain ⟨c, e, f⟩ := s
  constructor
  · cases c with
    | some t => exact ⟨some t, _, _, rfl⟩
    | none =>
      cases f with
      | record r =>
        by_cases h : strTruthy r.access_token
        · refine ⟨some r, ⟨some r, none, .record r⟩, [.fileRead], ?_⟩
          simp [loadTokensRun, h]
        · refine ⟨none, ⟨none, some ⟨"TOKEN_FILE_INVALID_SHAPE"⟩, .record r⟩, [.fileRead], ?_⟩
          simp [loadTokensRun, h]
      | absent => exact ⟨none, _, _, rfl⟩
      | ioError => exact ⟨none, _, _, rfl⟩
      | invalidJson => exact ⟨none, _, _, rfl⟩
      | primitiveJson => exact ⟨none, _, _, rfl⟩
  · intro hc
    cases hc
    refine ⟨?_, ?_, ?_, ?_, ?_, ?_⟩
    · rintro rfl; rfl
    · rintro rfl; rfl
    · rintro rfl; rfl
    · rintro r rfl h; simp [loadTokensRun, h]
    · rintro rfl; rfl
    · rintro r rfl h; simp [loadTokensRun, h]

/-- Witness for `loadTokens_spec`: a cold cache over an unparsable token
file yields null and `TOKEN_FILE_INVALID_JSON`. -/
theorem loadTokens_spec_witness :
    loadTokensRun ⟨none, none, .invalidJson⟩ =
      (.resolved none, ⟨none, some ⟨"TOKEN_FILE_INVALID_JSON"⟩, .invalidJson⟩,
        [.fileRead]) :=
  ((loadTokens_spec ⟨none, none, .invalidJson⟩).2 rfl).2.1 rfl

/-- C2 counterexample: on a token file whose read fails with a non-ENOENT
I/O error (cold cache, clean error slot), the async loader records
`TOKEN_FILE_READ_ERROR` while the sync loader records nothing at all, so
the two loaders do not record identical error reasons. -/
theorem loadSync_readError_divergence :
    (loadTokensRun ⟨none, none, .ioError⟩).2.1.lastErrorReason =
        some ⟨"TOKEN_FILE_READ_ERROR"⟩ ∧
    (loadTokenCacheSyncRun ⟨none, none, .ioError⟩).2.1.lastErrorReason = none :=
  ⟨rfl, rfl⟩

/-- C2 amended: for every state in which the file is not in the
other-I/O-failure class (or the cache is warm), the sync loader returns the
same result and produces the identical final state — in particular the
identical recorded error code — as the async loader; on the
other-I/O-failure class with a cold cache both return null, but the async
loader records `TOKEN_FILE_READ_ERROR` while the sync loader leaves the
state (and so the error slot) untouched. -/
theorem loadSync_equiv_load (s : TMState) :
    ((s.cachedTokens = none → s.file ≠ .ioError) →
      (loadTokensRun s).1 = .resolved (loadTokenCacheSyncRun s).1 ∧
      (loadTokensRun s).2.1 = (loadTokenCacheSyncRun s).2.1) ∧
    (s.cachedTokens = none → s.file = .ioError →
      (loadTokensRun s).1 = .resolved none ∧
      (loadTokenCacheSyncRun s).1 = none ∧
      (loadTokensRun s).2.1.lastErrorReason = some ⟨"TOKEN_FILE_READ_ERROR"⟩ ∧
      (loadTokenCacheSyncRun s).2.1 = s) := by
  obtain ⟨c, e, f⟩ := s
  constructor
  · intro h
    cases c with
    | some t => exact ⟨rfl, rfl⟩
    | none =>
      cases f with
      | record r =>
        by_cases ht : strTruthy r.access_token
        · simp [loadTokensRun, loadTokenCacheSyncRun, ht]
        · simp [loadTokensRun, loadTokenCacheSyncRun, ht]
      | absent => exact ⟨rfl, rfl⟩
      | ioError => exact absurd rfl (h rfl)
      | invalidJson => exact ⟨rfl, rfl⟩
      | primitiveJson => exact ⟨rfl, rfl⟩
  · intro hc hf
    cases hc
    cases hf
    exact ⟨rfl, rfl, rfl, rfl⟩

/-- Witness for `loadSync_equiv_load`: on an absent token file with a cold
cache both loaders agree (both classify `TOKEN_FILE_MISSING`). -/
theorem loadSync_equiv_load_witness :
    (loadTokensRun ⟨none, none, .absent⟩).1 =
      .resolved (loadTokenCacheSyncRun ⟨none, none, .absent⟩).1 ∧
    (loadTokensRun ⟨none, none, .absent⟩).2.1 =
      (loadTokenCacheSyncRun ⟨none, none, .absent⟩).2.1 :=
  (loadSync_equiv_load ⟨none, none, .absent⟩).1 (fun _ h => FileState.noConfusion h)

/-- C9 counterexample: the empty JSON object (a non-null JSON-representable
record with no `access_token`) saves successfully, but a cache-bypassing
reload classifies it `TOKEN_FILE_INVALID_SHAPE` and returns null, not a
record deep-equal to the saved one. -/
theorem saveLoad_roundtrip_cex :
    (loadTokensRun
        { (saveTokensRun (some ({} : TokenRecord)) ⟨none, none, .absent⟩).1 with
          cachedTokens := none }).1 ≠
      .resolved (some ({} : TokenRecord)) := by
  decide

/-- C9 amended: for every record whose `access_token` is a truthy (present,
non-empty) string, `saveTokens` followed by a cache-bypassing `loadTokens`
returns a record deep-equal (here: equal) to the saved one, re-caches it
and clears the error slot. -/
theorem saveLoad_roundtrip (T : TokenRecord) (s : TMState)
    (h : strTruthy T.access_token = true) :
    loadTokensRun { (saveTokensRun (some T) s).1 with cachedTokens := none } =
      (.resolved (some T), ⟨some T, none, .record T⟩, [.fileRead]) := by
  simp [saveTokensRun, loadTokensRun, h]

/-- Witness for `saveLoad_roundtrip` at the record `{access_token := "a"}`. -/
theorem saveLoad_roundtrip_witness :
    loadTokensRun
        { (saveTokensRun (some { access_token := some "a" }) ⟨none, none, .absent⟩).1 with
          cachedTokens := none } =
      (.resolved (some { access_token := some "a" }),
        ⟨some { access_token := some "a" }, none, .record { access_token := some "a" }⟩,
        [.fileRead]) :=
  saveLoad_roundtrip { access_token := some "a" } ⟨none, none, .absent⟩ (by decide)

/-- C6: whenever the cache holds a record with a truthy `access_token` and
`now < expires_at - buffer` (for nonnegative `now`), `getAccessToken()`
returns that cached token and clears the error slot, performing no file
read, file write or network request, and leaving cache and file untouched. -/
theorem getAccessToken_cached_valid (cfg : AuthCfg) (now : Int) (net : RefreshNet)
    (s : TMState) (t : TokenRecord) (tok : String) (e : Int)
    (hc : s.cachedTokens = some t) (ha : t.access_token = some tok) (hne : tok ≠ "")
    (he : t.expires_at = some e) (hnow : 0 ≤ now)
    (hlt : now < e - TOKEN_REFRESH_BUFFER_MS) :
    getAccessTokenRun cfg now net s = (some tok, { s with lastErrorReason := none }, []) := by
  have hB : (0 : Int) < TOKEN_REFRESH_BUFFER_MS := by norm_num [TOKEN_REFRESH_BUFFER_MS]
  have h0 : e ≠ 0 := by omega
  have hexp : isExpired s.cachedTokens now = false := by
    rw [hc]
    simp only [isExpired, he, if_neg h0, decide_eq_false_iff_not]
    omega
  have htr : strTruthy (s.cachedTokens.bind (fun u => u.access_token)) = true := by
    rw [hc]
    simp [ha, strTruthy, hne]
  unfold getAccessTokenRun
  rw [if_pos ⟨htr, by simp [hexp]⟩]
  rw [hc]
  simp [ha]

/-- C7: whenever a refresh run with a parsed 2xx response resolves (client
configured, a usable refresh token `rt` found in cache or on disk), the
record it returns, caches and persists is `refreshSuccessRecord body now rt`:
its `expires_at` is recomputed as issue time plus `expires_in * 1000`
(never taken verbatim from the response body), and when the response body
carries no truthy `refresh_token` the previously stored one `rt` is
retained. -/
theorem refresh_success_spec (cfg : AuthCfg) (now : Int) (body : TokenRecord)
    (s : TMState) (rt : String)
    (hcfg : cfgOk cfg = true) (hrt : usedRefreshToken s = some rt) (hne : rt ≠ "") :
    ∃ s2 effs,
      refreshRun cfg now (.success (some body)) s =
        (.resolved (refreshSuccessRecord body now rt), s2, effs) ∧
      (refreshSuccessRecord body now rt).expires_at =
        body.expires_in.map (fun ei => now + ei * 1000) ∧
      (strTruthy body.refresh_token = false →
        (refreshSuccessRecord body now rt).refresh_token = some rt) ∧
      s2.cachedTokens = some (refreshSuccessRecord body now rt) ∧
      s2.file = .record (refreshSuccessRecord body now rt) ∧
      Eff.fileWrite ∈ effs := by
  have hrun : refreshRun cfg now (.success (some body)) s =
      (.resolved (refreshSuccessRecord body now rt),
        { (loadTokensRun s).2.1 with
            file := .record (refreshSuccessRecord body now rt),
            cachedTokens := some (refreshSuccessRecord body now rt),
            lastErrorReason := none },
        ((loadTokensRun s).2.2 ++
            (if ¬ strTruthy ((loadTokensRun s).2.1.cachedTokens.bind
                (fun t => t.refresh_token)) then [Eff.fileRead] else [])) ++
          [Eff.netRequest] ++ [Eff.fileWrite]) := by
    unfold refreshRun
    rw [hrt]
    simp [hcfg, hne, saveTokensRun]
  refine ⟨_, _, hrun, ?_, ?_, rfl, rfl, by simp⟩
  · by_cases hb : strTruthy body.refresh_token <;> simp [refreshSuccessRecord, hb]
  · intro hb
    simp [refreshSuccessRecord, hb]

/-- Witness for `refresh_success_spec`: refreshing at `now = 1000` with a
2xx body `{access_token := "b", expires_in := 3600}` (no refresh token in
the response), starting from a warm cache holding refresh token `"r"`,
yields `expires_at = 3601000` and retains `refresh_token = "r"`. -/
theorem refresh_success_spec_witness :
    (refreshSuccessRecord { access_token := some "b", expires_in := some 3600 }
        1000 "r").expires_at = some 3601000 ∧
    (refreshSuccessRecord { access_token := some "b", expires_in := some 3600 }
        1000 "r").refresh_token = some "r" := by
  obtain ⟨s2, effs, hrun, h1, h2, _⟩ :=
    refresh_success_spec ⟨"id", "sec"⟩ 1000
      { access_token := some "b", expires_in := some 3600 }
      ⟨some { access_token := some "a", refresh_token := some "r" }, none, .absent⟩
      "r" (by decide) (by decide) (by decide)
  refine ⟨?_, h2 (by decide)⟩
  rw [h1]
  norm_num

/-- Frame facts about a sequential `loadTokens()` run: the file is never
written; the cache is unchanged unless it was empty and the file held a
record with a truthy `access_token`, in which case the cache is populated
with that record. -/
theorem loadTokensRun_frame (s : TMState) :
    ((loadTokensRun s).2.1).file = s.file ∧
    Eff.fileWrite ∉ (loadTokensRun s).2.2 ∧
    (((loadTokensRun s).2.1).cachedTokens = s.cachedTokens ∨
      (s.cachedTokens = none ∧ ∃ r, s.file = .record r ∧
        ((loadTokensRun s).2.1).cachedTokens = some r)) := by
  obtain ⟨c, e, f⟩ := s
  cases c with
  | some t => exact ⟨rfl, by simp [loadTokensRun], Or.inl rfl⟩
  | none =>
    cases f with
    | record r =>
      by_cases h : strTruthy r.access_token
      · exact ⟨by simp [loadTokensRun, h], by simp [loadTokensRun, h],
          Or.inr ⟨rfl, r, rfl, by simp [loadTokensRun, h]⟩⟩
      · simp only [Bool.not_eq_true] at h
        exact ⟨by simp [loadTokensRun, h], by simp [loadTokensRun, h],
          Or.inl (by simp [loadTokensRun, h])⟩
    | absent => exact ⟨rfl, by simp [loadTokensRun], Or.inl rfl⟩
    | ioError => exact ⟨rfl, by simp [loadTokensRun], Or.inl rfl⟩
    | invalidJson => exact ⟨rfl, by simp [loadTokensRun], Or.inl rfl⟩
    | primitiveJson => exact ⟨rfl, by simp [loadTokensRun], Or.inl rfl⟩

/-- The optional direct disk re-read contributes only a file read, never a
write. -/
theorem fileWrite_not_mem_ite (c : Prop) [Decidable c] :
    Eff.fileWrite ∉ (if c then [Eff.fileRead] else ([] : List Eff)) := by
  split <;> simp

/-- C10 counterexample: with credentials configured, a cold cache and a disk
record `{access_token := "a"}` carrying no refresh token, the failing
refresh ("No refresh token available") leaves the in-memory cache changed:
it was `none` before the call and holds the disk record afterwards. -/
theorem refresh_failure_mutates_cache :
    ((refreshRun ⟨"id", "secret"⟩ 0 .netError
        ⟨none, none, .record { access_token := some "a" }⟩).1 =
      .rejected "No refresh token available") ∧
    (refreshRun ⟨"id", "secret"⟩ 0 .netError
        ⟨none, none, .record { access_token := some "a" }⟩).2.1.cachedTokens ≠
      (⟨none, none, .record { access_token := some "a" }⟩ : TMState).cachedTokens := by
  decide

/-- C10 amended: every failing execution of `refreshAccessToken()` leaves
the on-disk token file exactly as it was and performs no file write; the
in-memory cached record is also left as it was, except that the embedded
load step may populate an empty cache from the existing disk file (no new
token is ever produced or stored by a failing refresh). -/
theorem refresh_failure_atomic (cfg : AuthCfg) (now : Int) (net : RefreshNet)
    (s : TMState) (msg : String) (s2 : TMState) (effs : List Eff)
    (h : refreshRun cfg now net s = (.rejected msg, s2, effs)) :
    s2.file = s.file ∧ Eff.fileWrite ∉ effs ∧
    (s2.cachedTokens = s.cachedTokens ∨
      (s.cachedTokens = none ∧ ∃ r, s.file = .record r ∧ s2.cachedTokens = some r)) := by
  obtain ⟨hfile, hw, hcache⟩ := loadTokensRun_frame s
  unfold refreshRun at h
  by_cases hcfg : cfgOk cfg = true
  · rw [if_neg (by simp [hcfg])] at h
    rcases hu : usedRefreshToken s with _ | rt
    · rw [hu] at h
      simp [Prod.mk.injEq] at h
      obtain ⟨-, h2, h3⟩ := h
      subst h2
      subst h3
      exact ⟨hfile, by simp [List.mem_append, fileWrite_not_mem_ite, hw], hcache⟩
    · rw [hu] at h
      by_cases h0 : rt = ""
      · simp [Prod.mk.injEq, h0] at h
        obtain ⟨-, h2, h3⟩ := h
        subst h2
        subst h3
        exact ⟨hfile, by simp [List.mem_append, fileWrite_not_mem_ite, hw], hcache⟩
      · cases net with
        | netError =>
          simp [Prod.mk.injEq, h0] at h
          obtain ⟨-, h2, h3⟩ := h
          subst h2
          subst h3
          exact ⟨hfile, by simp [List.mem_append, fileWrite_not_mem_ite, hw], hcache⟩
        | success body =>
          cases body with
          | none =>
            simp [Prod.mk.injEq, h0] at h
            obtain ⟨-, h2, h3⟩ := h
            subst h2
            subst h3
            exact ⟨hfile, by simp [List.mem_append, fileWrite_not_mem_ite, hw], hcache⟩
          | some body =>
            simp [Prod.mk.injEq, h0, saveTokensRun] at h
        | failure st ic =>
          simp [Prod.mk.injEq, h0] at h
          obtain ⟨-, h2, h3⟩ := h
          subst h2
          subst h3
          exact ⟨hfile, by simp [List.mem_append, fileWrite_not_mem_ite, hw], hcache⟩
  · rw [if_pos hcfg] at h
    simp [Prod.mk.injEq] at h
    obtain ⟨-, h2, h3⟩ := h
    subst h2
    subst h3
    exact ⟨rfl, by simp, Or.inl rfl⟩

/-- Witness for `refresh_failure_atomic`: the configuration-missing
rejection, which touches neither cache nor file. -/
theorem refresh_failure_atomic_witness :
    (⟨none, some ⟨"CLIENT_CONFIG_MISSING"⟩, .absent⟩ : TMState).file =
        (⟨none, none, .absent⟩ : TMState).file ∧
    Eff.fileWrite ∉ ([] : List Eff) ∧
    ((⟨none, some ⟨"CLIENT_CONFIG_MISSING"⟩, .absent⟩ : TMState).cachedTokens =
        (⟨none, none, .absent⟩ : TMState).cachedTokens ∨
      ((⟨none, none, .absent⟩ : TMState).cachedTokens = none ∧
        ∃ r, (⟨none, none, .absent⟩ : TMState).file = .record r ∧
          (⟨none, some ⟨"CLIENT_CONFIG_MISSING"⟩, .absent⟩ : TMState).cachedTokens =
            some r)) :=
  refresh_failure_atomic ⟨"", ""⟩ 0 .netError ⟨none, none, .absent⟩
    "Client ID or Client Secret is not configured"
    ⟨none, some ⟨"CLIENT_CONFIG_MISSING"⟩, .absent⟩ [] (by decide)

/-- C3 evaluated at its failing input: with credentials configured, a cold
cache and a disk record `{access_token := "a"}` holding no refresh token,
`refreshAccessToken()` rejects with "No refresh token available" while the
last-error slot was cleared to null by the successful embedded load and the
no-refresh-token path records nothing, so `getLastErrorReason()` yields
null after the rejection — no structured reason is retrievable. -/
theorem refresh_noRefreshToken_reason_null :
    refreshRun ⟨"id", "secret"⟩ 0 .netError
        ⟨none, some ⟨"TOKEN_FILE_MISSING"⟩, .record { access_token := some "a" }⟩ =
      (.rejected "No refresh token available",
        ⟨some { access_token := some "a" }, none, .record { access_token := some "a" }⟩,
        [.fileRead, .fileRead]) := by
  decide

/-- C1 evaluated at its failing interleaving: two concurrent
`refreshAccessToken()` callers (threads 0 and 1), both entering before
either resumes from its awaited token load — i.e. before either executes
the `_refreshPromise` assignment of token-manager.js:202 — issue two
network round trips to the token endpoint and end up waiting on two
distinct promises (0 and 1), instead of the single shared round trip the
claim and the source JSDoc describe. -/
theorem refresh_concurrent_duplicate :
    (rRun [0, 1, 0, 1] (rInit 2)).netCalls = 2 ∧
    (rRun [0, 1, 0, 1] (rInit 2)).threads =
      [RPhase.waiting 0, RPhase.waiting 1] := by
  decide

/-- Witness for `getAccessToken_cached_valid`: a warm cache holding
`{access_token := "tok", expires_at := 2000000}` queried at `now = 0`
returns the cached token, clears a previously recorded error, and performs
no effects. -/
theorem getAccessToken_cached_valid_witness :
    getAccessTokenRun ⟨"id", "sec"⟩ 0 .netError
        ⟨some { access_token := some "tok", expires_at := some 2000000 },
          some ⟨"TOKEN_FILE_MISSING"⟩, .absent⟩ =
      (some "tok",
        ⟨some { access_token := some "tok", expires_at := some 2000000 }, none, .absent⟩,
        []) :=
  getAccessToken_cached_valid ⟨"id", "sec"⟩ 0 .netError
    ⟨some { access_token := some "tok", expires_at := some 2000000 },
      some ⟨"TOKEN_FILE_MISSING"⟩, .absent⟩
    { access_token := some "tok", expires_at := some 2000000 } "tok" 2000000
    rfl rfl (by decide) rfl le_rfl (by norm_num [TOKEN_REFRESH_BUFFER_MS])
